import Mathlib

/-!
Shallow embedding of the QuizMatrix quiz platform core
(`src/hooks/useQuiz.js`, `src/utils/helpers.js`, and their callers in
`src/pages/admin/QuizControl.jsx` and `src/pages/participant/LiveQuestion.jsx`).

Conventions of the embedding:
- Firestore documents become Lean structures; `updateDoc` becomes a
  functional record update (fields not mentioned are preserved, which is
  exactly Firestore merge semantics for `updateDoc`).
- `serverTimestamp()` becomes an explicit `now : Nat` argument threaded
  into each operation that stamps a timestamp.
- JavaScript numbers used for time values become `Rat` (time taken is a
  fractional number of seconds in the source: `(Date.now() - start) / 1000`);
  question indices and scores are `Int` (the index starts at -1).
- `undefined` fields become `Option`.
-/

namespace QuizMatrix

/-! ## Scoring (`src/utils/helpers.js`, `calculateScore`, lines 29-37) -/

/-- Embeds `calculateScore(isCorrect, timeTaken, totalTime)` from
`src/utils/helpers.js`:
`if (!isCorrect) return 0;` then
`baseScore + Math.max(0, Math.floor((1 - timeTaken / totalTime) * 50))`
with `baseScore = 100`. -/
def calculateScore (isCorrect : Bool) (timeTaken totalTime : ℚ) : Int :=
  if !isCorrect then 0
  else
    let baseScore : Int := 100
    let speedBonus : Int := ⌊(1 - timeTaken / totalTime) * 50⌋
    baseScore + max 0 speedBonus

/-- Modelled from the spec's words (section 4.1), for comparison with the
source function `calculateScore`: "If `!isCorrect`, returns 0. Else returns
`100 + max(0, floor((1 - timeTaken/timeBudget) * 50))`". -/
def scoreSpec (isCorrect : Bool) (timeTaken timeBudget : ℚ) : Int :=
  if isCorrect then 100 + max 0 ⌊(1 - timeTaken / timeBudget) * 50⌋ else 0

/-! ## Quiz document and lifecycle operations (`src/hooks/useQuiz.js`) -/

inductive QuizStatus where
  | draft
  | waiting
  | live
  | ended
deriving DecidableEq, Repr

/-- The quiz document fields that the lifecycle and access-control
operations of `useQuiz.js` read or write. `currentQuestionIndex` is an
`Int` because it is initialized to -1. Timestamps are `Option Nat`
(`none` models both `null` and an absent field). -/
structure Quiz where
  status : QuizStatus
  currentQuestionIndex : Int
  questionStartTime : Option Nat
  quizStartTime : Option Nat
  totalQuestions : Nat
  allowedParticipants : List String
  isRestricted : Bool
deriving DecidableEq, Repr

/-- Embeds `createQuiz` (lines 32-49): a new quiz starts in `draft` with
`currentQuestionIndex: -1` and `questionStartTime: null`. The question
count is a parameter: plain `createQuiz` leaves `totalQuestions` unset
(modelled as 0), `createQuizFromJSON` sets it to the number of imported
questions, and `addQuestion` maintains it while the quiz is being
authored; `n` covers all of these creation-time possibilities. -/
def createQuiz (n : Nat) : Quiz :=
  { status := QuizStatus.draft
    currentQuestionIndex := -1
    questionStartTime := none
    quizStartTime := none
    totalQuestions := n
    allowedParticipants := []
    isRestricted := false }

/-- Embeds `startQuiz` (lines 348-353): unconditionally writes
`status: 'waiting'`, `currentQuestionIndex: -1`. There is no check of the
current status. -/
def startQuiz (q : Quiz) : Quiz :=
  { q with status := QuizStatus.waiting, currentQuestionIndex := -1 }

/-- Embeds `nextQuestion(quizId, currentIndex, totalQuestions)`
(lines 356-375). `currentIndex` and `totalQuestions` are caller-supplied
arguments (the admin page passes `quiz.currentQuestionIndex` and
`questions.length` from its realtime snapshot, `QuizControl.jsx` line 41);
the stored document is not consulted. If `currentIndex + 1 >= totalQuestions`
the quiz is ended keeping `currentIndex`; otherwise the status becomes
`live`, the index becomes `currentIndex + 1` and `questionStartTime` is
stamped with the server time. No status guard exists. -/
def nextQuestion (currentIndex : Int) (totalQuestions : Nat) (now : Nat)
    (q : Quiz) : Quiz :=
  let nextIndex := currentIndex + 1
  if nextIndex ≥ (totalQuestions : Int) then
    { q with status := QuizStatus.ended, currentQuestionIndex := currentIndex }
  else
    { q with status := QuizStatus.live
             currentQuestionIndex := nextIndex
             questionStartTime := some now }

/-- Embeds `startSelfPacedQuiz` (lines 378-384): unconditionally writes
`status: 'live'`, `currentQuestionIndex: 0`, `quizStartTime: serverTimestamp()`.
There is no status guard and no check that the timestamp was already set. -/
def startSelfPacedQuiz (now : Nat) (q : Quiz) : Quiz :=
  { q with status := QuizStatus.live
           currentQuestionIndex := 0
           quizStartTime := some now }

/-- Embeds `endQuiz` (lines 387-391): writes `status: 'ended'` only. -/
def endQuiz (q : Quiz) : Quiz :=
  { q with status := QuizStatus.ended }

/-- Embeds the quiz-document part of `restartQuiz` (lines 394-411): writes
`status: 'waiting'`, `currentQuestionIndex: -1`, `questionStartTime: null`.
Note that `quizStartTime` is not among the written fields, so Firestore
`updateDoc` leaves it unchanged. -/
def restartQuizDoc (q : Quiz) : Quiz :=
  { q with status := QuizStatus.waiting
           currentQuestionIndex := -1
           questionStartTime := none }

/-! ## Lifecycle reachability

One admin-driven step of the quiz state machine. `advance` applies
`nextQuestion` with the arguments the admin control page passes
(`QuizControl.jsx` `handleNextQuestion`, lines 37-47): the stored index
and the question count. The operations carry the server timestamp of the
moment they run. -/

inductive Step : Quiz → Quiz → Prop where
  | start (q : Quiz) : Step q (startQuiz q)
  | advance (q : Quiz) (now : Nat) :
      Step q (nextQuestion q.currentQuestionIndex q.totalQuestions now q)
  | startSelfPaced (q : Quiz) (now : Nat) : Step q (startSelfPacedQuiz now q)
  | finish (q : Quiz) : Step q (endQuiz q)
  | restart (q : Quiz) : Step q (restartQuizDoc q)

/-- Quiz states reachable from creation by the lifecycle operations. -/
inductive Reachable : Quiz → Prop where
  | create (n : Nat) : Reachable (createQuiz n)
  | step {q q' : Quiz} : Reachable q → Step q q' → Reachable q'

/-- A question document (`quizzes/{id}/questions/{qid}`): the fields
written by `addQuestion` / `createQuizFromJSON`. -/
structure Question where
  text : String
  options : List String
  correctAnswer : Int
  index : Nat
deriving DecidableEq, Repr

/-- A participant document (`quizzes/{id}/participants/{uid}`): the fields
`submitAnswer` reads and writes. -/
structure Participant where
  score : Int
  answeredQuestions : List Int
deriving DecidableEq, Repr

/-- A response document (`quizzes/{id}/responses/{rid}`): the fields
written by `submitAnswer` (the `od` prefixes of the source field names are
dropped). -/
structure Response where
  questionIndex : Int
  selectedAnswer : Int
  isCorrect : Bool
  timeTaken : ℚ
  submittedAt : Nat
deriving DecidableEq, Repr

/-- A quiz document together with its three subcollections, as acted on by
`restartQuiz` and `deleteSubcollection`. -/
structure QuizStore where
  quiz : Quiz
  questions : List Question
  participants : List Participant
  responses : List Response
deriving DecidableEq, Repr

/-- Embeds `restartQuiz` (lines 394-411): updates the quiz document with
`status: 'waiting'`, `currentQuestionIndex: -1`, `questionStartTime: null`
(and nothing else — in particular `quizStartTime` is not written), then
deletes every document of the `participants` and `responses`
subcollections; the `questions` subcollection is not touched. -/
def restartQuiz (s : QuizStore) : QuizStore :=
  { quiz := restartQuizDoc s.quiz
    questions := s.questions
    participants := []
    responses := [] }

/-- A freshly created quiz with three questions; its status is `draft`. -/
def draftQuiz : Quiz := createQuiz 3

/-- A running overall-mode quiz whose `quizStartTime` was stamped at
server time 5, with one participant and one response on file. -/
def runningSelfPacedStore : QuizStore :=
  { quiz := { createQuiz 2 with status := QuizStatus.live
                                currentQuestionIndex := 0
                                quizStartTime := some 5 }
    questions := [{ text := "first", options := ["a", "b", "c", "d"],
                    correctAnswer := 0, index := 0 }]
    participants := [{ score := 141, answeredQuestions := [0] }]
    responses := [{ questionIndex := 0, selectedAnswer := 0, isCorrect := true,
                    timeTaken := 5, submittedAt := 7 }] }

/-- An overall-mode quiz in `waiting`, about to be started self-paced. -/
def waitingOverallQuiz : Quiz := startQuiz (createQuiz 3)

/-! ## Answer submission (`src/hooks/useQuiz.js`, `submitAnswer`,
lines 442-492)

`submitAnswer` touches only the caller's own participant document and the
shared responses collection, so the store is modelled as that slice: one
optional participant record plus the list of responses. -/

/-- The slice of a quiz's data that one participant's `submitAnswer`
operates on: that participant's document (if it exists) and the responses
collection. -/
structure PStore where
  participant : Option Participant
  responses : List Response
deriving DecidableEq, Repr

/-- The score read of `submitAnswer`: `currentData.score || 0` applied to
the participant document (0 when the document does not exist). -/
def pScore (s : PStore) : Int :=
  match s.participant with
  | some p => p.score
  | none => 0

/-- The answered-questions read of `submitAnswer`:
`currentData.answeredQuestions || []`. -/
def pAnswered (s : PStore) : List Int :=
  match s.participant with
  | some p => p.answeredQuestions
  | none => []

/-- Embeds `submitAnswer(quizId, questionIndex, selectedAnswer, timeTaken,
isCorrect, maxTime)` (lines 442-492). Steps of the source, in order:
compute `points` via `calculateScore`; create the participant document
with score 0 and empty `answeredQuestions` if it does not exist; append
one response document; re-read the participant document (it now exists)
and write `score + points` and `answeredQuestions ++ [questionIndex]`.
No membership check of `questionIndex` in `answeredQuestions` is
performed anywhere in the function. Returns the points and new store. -/
def submitAnswer (questionIndex selectedAnswer : Int) (timeTaken : ℚ)
    (isCorrect : Bool) (maxTime : ℚ) (now : Nat) (s : PStore) :
    Int × PStore :=
  let points := calculateScore isCorrect timeTaken maxTime
  let existing : Participant :=
    match s.participant with
    | some p => p
    | none => { score := 0, answeredQuestions := [] }
  let responses := s.responses ++
    [{ questionIndex := questionIndex
       selectedAnswer := selectedAnswer
       isCorrect := isCorrect
       timeTaken := timeTaken
       submittedAt := now }]
  let updated : Participant :=
    { score := existing.score + points
      answeredQuestions := existing.answeredQuestions ++ [questionIndex] }
  (points, { participant := some updated, responses := responses })

/-- A participant who has just joined: score 0, nothing answered, no
responses on file. -/
def joinedPStore : PStore :=
  { participant := some { score := 0, answeredQuestions := [] }
    responses := [] }

/-- First submission: question 0, option 1, correct, 5 of 30 seconds,
server time 100. -/
def submitOnce : Int × PStore := submitAnswer 0 1 5 true 30 100 joinedPStore

/-- Identical second submission for the same (participant, questionIndex). -/
def submitTwice : Int × PStore := submitAnswer 0 1 5 true 30 100 submitOnce.2

/-! ## Allowed-participant management (`src/hooks/useQuiz.js`,
lines 171-214) -/

/-- Whitespace trimming on the character list of a string: drop leading
and trailing whitespace, as JavaScript `trim()` does. -/
def trimChars (l : List Char) : List Char :=
  ((l.dropWhile Char.isWhitespace).reverse.dropWhile Char.isWhitespace).reverse

/-- JavaScript `s.trim()`. -/
def strTrim (s : String) : String := String.mk (trimChars s.data)

/-- JavaScript `s.toLowerCase()` (on the ASCII emails and option texts
this program handles). -/
def strToLower (s : String) : String := String.mk (s.data.map Char.toLower)

/-- The normalization `e.trim().toLowerCase()` applied to each email by
`addAllowedParticipants`. -/
def normalizeEmail (e : String) : String := strToLower (strTrim e)

/-- Embeds `addAllowedParticipants(quizId, emails)` (lines 171-191):
normalizes each email (trim + lowercase), drops empty strings, keeps only
those not already in `allowedParticipants` (`!currentAllowed.includes(e)` —
the batch is not de-duplicated against itself), and if any survive,
appends them and sets `isRestricted: true`; returns the survivor count. -/
def addAllowedParticipants (q : Quiz) (emails : List String) : Quiz × Nat :=
  let currentAllowed := q.allowedParticipants
  let normalizedEmails :=
    (emails.map normalizeEmail).filter (fun e => decide (e ≠ ""))
  let newEmails :=
    normalizedEmails.filter (fun e => decide (e ∉ currentAllowed))
  if 0 < newEmails.length then
    ({ q with allowedParticipants := currentAllowed ++ newEmails
              isRestricted := true },
     newEmails.length)
  else
    (q, newEmails.length)

/-- Embeds `removeAllowedParticipant(quizId, email)` (lines 194-208):
filters out `email.toLowerCase()` and unconditionally writes
`isRestricted: updatedAllowed.length > 0`. -/
def removeAllowedParticipant (q : Quiz) (email : String) : Quiz :=
  let updatedAllowed :=
    q.allowedParticipants.filter (fun e => decide (e ≠ strToLower email))
  { q with allowedParticipants := updatedAllowed
           isRestricted := decide (0 < updatedAllowed.length) }

/-- Embeds `toggleQuizRestriction(quizId, isRestricted)` (lines 211-214):
writes the given flag and nothing else. -/
def toggleQuizRestriction (q : Quiz) (isRestricted : Bool) : Quiz :=
  { q with isRestricted := isRestricted }

/-! ## Question validation (`src/utils/helpers.js` lines 112-129 and
`src/hooks/useQuiz.js` lines 80-99) -/

/-- The question form handled by the manage-questions page: `text`,
`options` (always an array there), and `correctAnswer`, where `none`
models the page's initial `-1`-free `undefined` comparison
(`question.correctAnswer === undefined`). -/
structure QuestionForm where
  text : String
  options : List String
  correctAnswer : Option Int
deriving DecidableEq, Repr

/-- Embeds `validateQuestionData(question)` from `src/utils/helpers.js`
(lines 112-129). The three checks, in source order: text present and
trimmed length at least 5; at least 2 non-empty options
(`opt && opt.trim().length > 0`); and `correctAnswer` defined and not
negative. No upper bound on `correctAnswer` is checked. -/
def validateQuestionData (question : QuestionForm) : List String :=
  (if question.text = "" ∨ (strTrim question.text).length < 5 then
      ["Question text must be at least 5 characters"]
    else []) ++
  (if (question.options.filter
        (fun opt => decide (opt ≠ "") && decide (0 < (strTrim opt).length))).length < 2 then
      ["At least 2 options are required"]
    else []) ++
  (match question.correctAnswer with
   | none => ["Please select the correct answer"]
   | some ca => if ca < 0 then ["Please select the correct answer"] else [])

/-- The write gate of the manage-questions page (`handleSubmit`): the
question is written (via `addQuestion` or `updateQuestion`) exactly when
`validateQuestionData` reported no errors. -/
def questionSubmitWrites (form : QuestionForm) : Bool :=
  (validateQuestionData form).isEmpty

/-- One question of a JSON import. `none` in `correctAnswer` models a
value that is not a number; `optionImages` is optional. The `imageUrl`
type check of the source cannot fail in a typed model and is omitted. -/
structure JSONQuestion where
  text : String
  options : List String
  correctAnswer : Option Int
  optionImages : Option (List String)
deriving DecidableEq, Repr

/-- Embeds the per-question validation loop of `createQuizFromJSON`
(`src/hooks/useQuiz.js` lines 80-99), which throws before any document is
written: text required; options must be an array of exactly 4 items;
`correctAnswer` must be a number in 0..3; `optionImages`, when present,
must have exactly 4 items. The sequence of early `throw`s becomes nested
if-else. -/
def validateJSONQuestion (q : JSONQuestion) : Except String Unit :=
  if q.text = "" then
    Except.error "text is required"
  else if q.options.length ≠ 4 then
    Except.error "options must be an array of 4 items"
  else
    match q.correctAnswer with
    | none => Except.error "correctAnswer must be 0, 1, 2, or 3"
    | some ca =>
      if ca < 0 ∨ 3 < ca then
        Except.error "correctAnswer must be 0, 1, 2, or 3"
      else
        match q.optionImages with
        | some imgs =>
          if imgs.length ≠ 4 then
            Except.error "optionImages must be an array of 4 items"
          else
            Except.ok ()
        | none => Except.ok ()

/-- A well-formed manual question form except that `correctAnswer = 9`
points far beyond its 4 options. -/
def overRangeForm : QuestionForm :=
  { text := "What is two plus two?"
    options := ["one", "two", "three", "four"]
    correctAnswer := some 9 }

/-- A well-formed JSON question except that `correctAnswer = 9` points
beyond its 4 options. -/
def overRangeJSONQuestion : JSONQuestion :=
  { text := "What is two plus two?"
    options := ["one", "two", "three", "four"]
    correctAnswer := some 9
    optionImages := none }

/-- A quiz whose allow-list already holds one normalized email. -/
def quizAllowingAlice : Quiz :=
  { createQuiz 1 with allowedParticipants := ["alice@example.com"]
                      isRestricted := true }

/-- A live quiz whose stored `currentQuestionIndex` is 5, used to compare
the stored index with the client-passed index argument of `nextQuestion`. -/
def liveQuizAtFive : Quiz :=
  { createQuiz 10 with status := QuizStatus.live, currentQuestionIndex := 5 }

end QuizMatrix

namespace QuizMatrix

/-! ## Theorems for claim C2 -/

/-- C2: with `timeBudget > 0`, `calculateScore` returns 0 on incorrect
answers regardless of timing, agrees with the spec formula
`100 + max(0, floor((1 - timeTaken/timeBudget) * 50))` on correct answers,
lies in [100, 150] whenever `0 ≤ timeTaken ≤ timeBudget`, and equals 141
at `timeTaken = 5`, `timeBudget = 30`. -/
theorem C2_calculateScore (timeTaken timeBudget : ℚ) (hb : 0 < timeBudget) :
    calculateScore false timeTaken timeBudget = 0 ∧
    calculateScore true timeTaken timeBudget = scoreSpec true timeTaken timeBudget ∧
    (0 ≤ timeTaken → timeTaken ≤ timeBudget →
      100 ≤ calculateScore true timeTaken timeBudget ∧
      calculateScore true timeTaken timeBudget ≤ 150) ∧
    calculateScore true 5 30 = 141 := by
  refine ⟨rfl, rfl, ?_, ?_⟩
  · intro ht htb
    have hdiv : 0 ≤ timeTaken / timeBudget := div_nonneg ht (le_of_lt hb)
    have hle : (1 - timeTaken / timeBudget) * 50 ≤ 50 := by nlinarith
    have hfl : ⌊(1 - timeTaken / timeBudget) * 50⌋ ≤ 50 := by
      have h50 : (⌊(1 - timeTaken / timeBudget) * 50⌋ : ℚ) ≤ 50 :=
        le_trans (Int.floor_le _) hle
      exact_mod_cast h50
    constructor
    · simp only [calculateScore]
      exact le_add_of_nonneg_right (le_max_left 0 _)
    · simp only [calculateScore]
      have : max 0 ⌊(1 - timeTaken / timeBudget) * 50⌋ ≤ 50 :=
        max_le (by norm_num) hfl
      omega
  · have h41 : ⌊((1 : ℚ) - 5 / 30) * 50⌋ = 41 := by
      rw [Int.floor_eq_iff]
      norm_num
    simp only [calculateScore, h41]
    norm_num

theorem C2_calculateScore_witness :
    100 ≤ calculateScore true 5 30 ∧ calculateScore true 5 30 ≤ 150 :=
  (C2_calculateScore 5 30 (by norm_num)).2.2.1 (by norm_num) (by norm_num)

/-! ## Theorems for claim C3 -/

/-- C3 counterexample: Advance invoked on a `draft` quiz is not rejected
and does not leave the state unchanged — `nextQuestion` applied to a
freshly created quiz (status `draft`, index -1, 3 questions) succeeds and
moves it to `live` at index 0. -/
theorem C3_counterexample :
    draftQuiz.status = QuizStatus.draft ∧
    (nextQuestion draftQuiz.currentQuestionIndex draftQuiz.totalQuestions 0
        draftQuiz).status = QuizStatus.live ∧
    nextQuestion draftQuiz.currentQuestionIndex draftQuiz.totalQuestions 0
        draftQuiz ≠ draftQuiz := by
  refine ⟨rfl, by decide, by decide⟩

/-- C3 amended: the lifecycle operations perform no status guard at all.
Applied in any current status (including `draft`), `startQuiz` always
writes `waiting`, `nextQuestion` always writes `ended` or `live` according
only to the index arithmetic, and `startSelfPacedQuiz` always writes
`live`; no operation rejects with an error or leaves the state untouched
because of the current status. -/
theorem C3_no_status_guard (q : Quiz) (currentIndex : Int) (total : Nat)
    (now : Nat) :
    (startQuiz q).status = QuizStatus.waiting ∧
    (nextQuestion currentIndex total now q).status =
      (if currentIndex + 1 ≥ (total : Int) then QuizStatus.ended
       else QuizStatus.live) ∧
    (startSelfPacedQuiz now q).status = QuizStatus.live := by
  refine ⟨rfl, ?_, rfl⟩
  by_cases h : currentIndex + 1 ≥ (total : Int) <;> simp [nextQuestion, h]

/-! ## Theorems for claim C4 -/

/-- C4 counterexample: the invariant `currentQuestionIndex < totalQuestions`
fails on a reachable live state. A quiz created with zero questions and
then started self-paced is reachable, has status `live`, and has
`currentQuestionIndex = 0` which is not below `totalQuestions = 0`
(`startSelfPacedQuiz` performs no question-count check). -/
theorem C4_counterexample :
    Reachable (startSelfPacedQuiz 0 (createQuiz 0)) ∧
    (startSelfPacedQuiz 0 (createQuiz 0)).status = QuizStatus.live ∧
    ¬ (startSelfPacedQuiz 0 (createQuiz 0)).currentQuestionIndex
        < ((startSelfPacedQuiz 0 (createQuiz 0)).totalQuestions : Int) := by
  refine ⟨Reachable.step (Reachable.create 0) (Step.startSelfPaced _ 0),
    rfl, by decide⟩

/-- Every single lifecycle step establishes the index bound on its
post-state, as long as that post-state holds at least one question. -/
theorem step_establishes_index_bound (q q' : Quiz) (hs : Step q q') :
    1 ≤ q'.totalQuestions → q'.status = QuizStatus.live →
    q'.currentQuestionIndex < (q'.totalQuestions : Int) := by
  intro hn hl
  cases hs with
  | start => simp [startQuiz] at hl
  | advance now =>
    by_cases h : q.currentQuestionIndex + 1 ≥ (q.totalQuestions : Int)
    · simp [nextQuestion, h] at hl
    · simp only [nextQuestion, ge_iff_le, if_neg h]
      push_neg at h
      exact h
  | startSelfPaced now =>
    simp only [startSelfPacedQuiz] at hn ⊢
    omega
  | finish => simp [endQuiz] at hl
  | restart => simp [restartQuizDoc] at hl

/-- C4 amended: for quizzes holding at least one question, the invariant
does hold — in every state reachable by the lifecycle operations, if the
status is `live` then `currentQuestionIndex < totalQuestions`. -/
theorem C4_live_index_in_range (q : Quiz) (hq : Reachable q) :
    1 ≤ q.totalQuestions → q.status = QuizStatus.live →
    q.currentQuestionIndex < (q.totalQuestions : Int) := by
  induction hq with
  | create n =>
    intro _ hl
    simp [createQuiz] at hl
  | step hr hs ih =>
    exact step_establishes_index_bound _ _ hs

theorem C4_live_index_in_range_witness :
    (startSelfPacedQuiz 0 (createQuiz 1)).currentQuestionIndex
      < ((startSelfPacedQuiz 0 (createQuiz 1)).totalQuestions : Int) :=
  C4_live_index_in_range _
    (Reachable.step (Reachable.create 1) (Step.startSelfPaced _ 0))
    (by decide) rfl

/-! ## Theorems for claim C8 -/

/-- C8 counterexample: the stored index does not govern the increment.
On a quiz whose stored `currentQuestionIndex` is 5, calling `nextQuestion`
with client-passed index 0 writes index 1 (client value + 1), not 6
(stored value + 1): the write is governed by the caller's cached value. -/
theorem C8_counterexample :
    liveQuizAtFive.currentQuestionIndex = 5 ∧
    (nextQuestion 0 10 7 liveQuizAtFive).currentQuestionIndex = 1 ∧
    (nextQuestion 0 10 7 liveQuizAtFive).currentQuestionIndex ≠
      liveQuizAtFive.currentQuestionIndex + 1 := by
  refine ⟨rfl, by decide, by decide⟩

/-- C8 amended: duplicate Advance calls issued for the same observed state
both perform an absolute write of the client-passed index plus one, so
starting from observed index `k` (with `k + 1` still in range) the index
ends at `k + 1` after one call and still `k + 1` — never `k + 2` — after a
duplicate call; the increment is governed by the client-passed index, not
by the stored one. -/
theorem C8_advance_absolute_write (q : Quiz) (k : Int) (total : Nat)
    (now1 now2 : Nat) (h : k + 1 < (total : Int)) :
    (nextQuestion k total now1 q).currentQuestionIndex = k + 1 ∧
    (nextQuestion k total now2
        (nextQuestion k total now1 q)).currentQuestionIndex = k + 1 ∧
    (nextQuestion k total now2
        (nextQuestion k total now1 q)).currentQuestionIndex ≠ k + 2 := by
  have hn : ¬ k + 1 ≥ (total : Int) := not_le.mpr h
  refine ⟨?_, ?_, ?_⟩ <;> simp [nextQuestion, hn]

theorem C8_advance_absolute_write_witness :
    (nextQuestion 0 2 3 (nextQuestion 0 2 1 (createQuiz 2))).currentQuestionIndex
      = 0 + 1 :=
  (C8_advance_absolute_write (createQuiz 2) 0 2 1 3 (by decide)).2.1

/-! ## Theorems for claim C5 -/

/-- C5 counterexample: Restart does not clear `quizStartTime`. On a
running overall-mode quiz whose `quizStartTime` was stamped at server
time 5, `restartQuiz` leaves `quizStartTime = some 5` — it is not cleared,
contrary to the claim that both start timestamps are cleared. -/
theorem C5_counterexample :
    runningSelfPacedStore.quiz.quizStartTime = some 5 ∧
    (restartQuiz runningSelfPacedStore).quiz.quizStartTime = some 5 ∧
    (restartQuiz runningSelfPacedStore).quiz.quizStartTime ≠ none := by
  refine ⟨rfl, rfl, by decide⟩

/-- C5 amended: after Restart the status is `waiting`,
`currentQuestionIndex` is -1, `questionStartTime` is cleared (but
`quizStartTime` is left unchanged, since `restartQuiz` does not write that
field), every Participant and every Response record of the quiz is
deleted, and the Questions (and `totalQuestions`) are left unchanged. -/
theorem C5_restart_effects (s : QuizStore) :
    (restartQuiz s).quiz.status = QuizStatus.waiting ∧
    (restartQuiz s).quiz.currentQuestionIndex = -1 ∧
    (restartQuiz s).quiz.questionStartTime = none ∧
    (restartQuiz s).quiz.quizStartTime = s.quiz.quizStartTime ∧
    (restartQuiz s).participants = [] ∧
    (restartQuiz s).responses = [] ∧
    (restartQuiz s).questions = s.questions ∧
    (restartQuiz s).quiz.totalQuestions = s.quiz.totalQuestions := by
  refine ⟨rfl, rfl, rfl, rfl, rfl, rfl, rfl, rfl⟩

/-! ## Theorems for claim C6 -/

/-- C6 counterexample: a second StartSelfPaced call is not a no-op with
respect to `quizStartTime`. Starting a waiting overall-mode quiz at server
time 10 stamps `quizStartTime = 10`; calling `startSelfPacedQuiz` again at
server time 20 — before any End — re-stamps it to 20. -/
theorem C6_counterexample :
    (startSelfPacedQuiz 10 waitingOverallQuiz).quizStartTime = some 10 ∧
    (startSelfPacedQuiz 20
        (startSelfPacedQuiz 10 waitingOverallQuiz)).quizStartTime = some 20 ∧
    (startSelfPacedQuiz 20
        (startSelfPacedQuiz 10 waitingOverallQuiz)).quizStartTime ≠ some 10 := by
  refine ⟨rfl, rfl, by decide⟩

/-- C6 amended: `startSelfPacedQuiz` sets `currentQuestionIndex = 0`,
`status = live` and stamps `quizStartTime` with the current server time on
every call — a subsequent call before End overwrites `quizStartTime` with
its own server time rather than leaving the first stamp in place. -/
theorem C6_start_self_paced_restamps (q : Quiz) (now1 now2 : Nat) :
    (startSelfPacedQuiz now1 q).status = QuizStatus.live ∧
    (startSelfPacedQuiz now1 q).currentQuestionIndex = 0 ∧
    (startSelfPacedQuiz now1 q).quizStartTime = some now1 ∧
    (startSelfPacedQuiz now2
        (startSelfPacedQuiz now1 q)).quizStartTime = some now2 := by
  refine ⟨rfl, rfl, rfl, rfl⟩

/-! ## Theorems for claim C1 -/

/-- A correct answer in 5 of 30 seconds scores 141 points. -/
theorem calculateScore_five_thirty : calculateScore true 5 30 = 141 := by
  have h41 : ⌊((1 : ℚ) - 5 / 30) * 50⌋ = 41 := by
    rw [Int.floor_eq_iff]
    norm_num
  simp only [calculateScore, h41]
  norm_num

/-- C1 counterexample: `submitAnswer` does not reject a resubmission. A
participant submits question 0 (correct, 5 of 30 seconds) and then
resubmits with identical arguments: after the first call `0` is already in
`answeredQuestions`, yet the second call is not a no-op — it leaves two
Response records, a doubled score of 282 instead of 141, and the question
index recorded twice. -/
theorem C1_counterexample :
    submitOnce.1 = 141 ∧
    submitOnce.2.responses.length = 1 ∧
    pAnswered submitOnce.2 = [0] ∧
    submitTwice.2.responses.length = 2 ∧
    pScore submitTwice.2 = 282 ∧
    pAnswered submitTwice.2 = [0, 0] := by
  refine ⟨?_, by decide, by decide, by decide, ?_, by decide⟩
  · simpa [submitOnce, submitAnswer] using calculateScore_five_thirty
  · simp [submitTwice, submitOnce, submitAnswer, joinedPStore, pScore,
      calculateScore_five_thirty]

/-- C1 amended: `submitAnswer` performs no already-answered check at all.
From any store, two calls with identical arguments append two Response
records, add the points twice to the participant's score, and append the
question index twice to `answeredQuestions`; at-most-once scoring is not
enforced by this operation (the only guard in the program is the
client-side `hasAnswered` check in the submitting page). -/
theorem C1_submit_has_no_at_most_once_guard (questionIndex selectedAnswer : Int)
    (timeTaken : ℚ) (isCorrect : Bool) (maxTime : ℚ) (now1 now2 : Nat)
    (s : PStore) :
    (submitAnswer questionIndex selectedAnswer timeTaken isCorrect maxTime now2
        (submitAnswer questionIndex selectedAnswer timeTaken isCorrect maxTime
          now1 s).2).2.responses.length = s.responses.length + 2 ∧
    pScore (submitAnswer questionIndex selectedAnswer timeTaken isCorrect
        maxTime now2
        (submitAnswer questionIndex selectedAnswer timeTaken isCorrect maxTime
          now1 s).2).2
      = pScore s + 2 * calculateScore isCorrect timeTaken maxTime ∧
    pAnswered (submitAnswer questionIndex selectedAnswer timeTaken isCorrect
        maxTime now2
        (submitAnswer questionIndex selectedAnswer timeTaken isCorrect maxTime
          now1 s).2).2
      = pAnswered s ++ [questionIndex, questionIndex] := by
  rcases s with ⟨p, rs⟩
  cases p <;>
    simp [submitAnswer, pScore, pAnswered, List.length_append] <;>
    ring

/-! ## Theorems for claim C7 -/

/-- C7 counterexample: on a quiz with an empty allow-list,
`addAllowedParticipants` with `["x@y.com", "x@y.com", " Z@Y.com "]` adds
3 entries and returns 3, not 2: the input batch is only de-duplicated
against the existing list, so the repeated `"x@y.com"` ends up listed
twice. -/
theorem C7_counterexample :
    draftQuiz.allowedParticipants = [] ∧
    (addAllowedParticipants draftQuiz
        ["x@y.com", "x@y.com", " Z@Y.com "]).2 = 3 ∧
    (addAllowedParticipants draftQuiz
        ["x@y.com", "x@y.com", " Z@Y.com "]).1.allowedParticipants
      = ["x@y.com", "x@y.com", "z@y.com"] ∧
    ((addAllowedParticipants draftQuiz
        ["x@y.com", "x@y.com", " Z@Y.com "]).1.allowedParticipants).count
        "x@y.com" = 2 := by
  refine ⟨rfl, by decide, by decide, by decide⟩

/-- C7 amended: `addAllowedParticipants` normalizes (trim + lowercase),
drops empty strings, de-duplicates only against the existing list — not
within the input batch — appends the surviving entries (so the list grows
by exactly the returned count, and no already-listed email is duplicated),
and sets `isRestricted = true` whenever at least one entry is added; on
the scenario input over an empty allow-list it adds 3 entries (the
repeated address twice) and returns 3. -/
theorem C7_addAllowed_properties (q : Quiz) (emails : List String) :
    (addAllowedParticipants q emails).1.allowedParticipants.length
      = q.allowedParticipants.length + (addAllowedParticipants q emails).2 ∧
    (∀ e, e ∈ q.allowedParticipants →
      ((addAllowedParticipants q emails).1.allowedParticipants).count e
        = q.allowedParticipants.count e) ∧
    (0 < (addAllowedParticipants q emails).2 →
      (addAllowedParticipants q emails).1.isRestricted = true) := by
  simp only [addAllowedParticipants]
  by_cases h : 0 <
      (((emails.map normalizeEmail).filter (fun e => decide (e ≠ ""))).filter
        (fun e => decide (e ∉ q.allowedParticipants))).length
  · simp only [if_pos h]
    refine ⟨?_, ?_, ?_⟩
    · simp [List.length_append]
    · intro e he
      rw [List.count_append]
      have hz : (((emails.map normalizeEmail).filter
            (fun e => decide (e ≠ ""))).filter
            (fun e => decide (e ∉ q.allowedParticipants))).count e = 0 := by
        rw [List.count_eq_zero]
        intro hmem
        have hf := (List.mem_filter.mp hmem).2
        rw [decide_eq_true_iff] at hf
        exact hf he
      rw [hz]
      omega
    · intro _
      trivial
  · simp only [if_neg h]
    refine ⟨?_, ?_, ?_⟩
    · omega
    · intro e _
      trivial
    · intro hc
      exact absurd hc h

theorem C7_addAllowed_properties_witness :
    ((addAllowedParticipants quizAllowingAlice
        ["bob@example.com"]).1.allowedParticipants).count "alice@example.com"
      = quizAllowingAlice.allowedParticipants.count "alice@example.com" :=
  (C7_addAllowed_properties quizAllowingAlice ["bob@example.com"]).2.1
    "alice@example.com" (by decide)

/-! ## Theorems for claim C9 -/

/-- C9 counterexample: the manual create/update validation does not reject
`correctAnswer` at or above the number of options. A form whose
`correctAnswer` is 9 against 4 options passes `validateQuestionData` with
no errors, so the page proceeds to write the question. -/
theorem C9_counterexample :
    overRangeForm.options.length = 4 ∧
    validateQuestionData overRangeForm = [] ∧
    questionSubmitWrites overRangeForm = true := by
  refine ⟨rfl, by decide, by decide⟩

/-- C9 amended: only the JSON-import path range-checks `correctAnswer` on
both sides before any write (options being fixed at 4 there, any value
below 0 or above 3 is rejected); the manual create/update path rejects
only a missing or negative `correctAnswer` — a value at or above the
number of options passes its validation. -/
theorem C9_correct_answer_range (jq : JSONQuestion) (ca : Int)
    (hca : jq.correctAnswer = some ca) (hout : ca < 0 ∨ 3 < ca)
    (form : QuestionForm) (cb : Int) (hcb : form.correctAnswer = some cb)
    (hnn : 0 ≤ cb) :
    validateJSONQuestion jq ≠ Except.ok () ∧
    "Please select the correct answer" ∉ validateQuestionData form := by
  constructor
  · unfold validateJSONQuestion
    split
    · exact fun h => Except.noConfusion h
    · split
      · exact fun h => Except.noConfusion h
      · rw [hca]
        simp only [if_pos hout]
        exact fun h => Except.noConfusion h
  · simp only [validateQuestionData, hcb]
    rw [if_neg (not_lt.mpr hnn)]
    by_cases h1 : form.text = "" ∨ (strTrim form.text).length < 5 <;>
      by_cases h2 : (form.options.filter
          (fun opt => decide (opt ≠ "") && decide (0 < (strTrim opt).length))).length < 2 <;>
      simp [h1, h2]

theorem C9_correct_answer_range_witness :
    validateJSONQuestion overRangeJSONQuestion ≠ Except.ok () ∧
    "Please select the correct answer" ∉ validateQuestionData overRangeForm :=
  C9_correct_answer_range overRangeJSONQuestion 9 rfl (Or.inr (by norm_num))
    overRangeForm 9 rfl (by norm_num)

/-! ## Theorems for claim C10 -/

/-- C10: `removeAllowedParticipant` unconditionally overwrites
`isRestricted` with whether the remaining allow-list is non-empty: the
outcome is the same whatever the flag was toggled to beforehand, and the
resulting flag is true exactly when entries remain — so removing one email
while others remain re-enables restriction even after it was disabled via
`toggleQuizRestriction`, and removing the last entry disables it. -/
theorem C10_remove_overwrites_restriction (q : Quiz) (email : String) (b : Bool) :
    (removeAllowedParticipant (toggleQuizRestriction q b) email).isRestricted
      = (removeAllowedParticipant q email).isRestricted ∧
    ((removeAllowedParticipant q email).isRestricted = true ↔
      (removeAllowedParticipant q email).allowedParticipants ≠ []) := by
  refine ⟨rfl, ?_⟩
  simp [removeAllowedParticipant, List.length_pos]

end QuizMatrix
